import Mathlib

/-
Verification of the humiapi psychrometric engine.

The source is Python.  Numeric values are embedded as follows: input scalars
(temperatures, humidities) are rationals, since every concrete Python float is a
rational number and all control flow (range checks, the singular-denominator
guards) compares against rational literals; computed quantities live in ℝ
because the formula chain applies the exponential function.  Python exceptions
become an explicit error type carried by `Except`: the source raises
`ValueError` with a message string for every validation failure, and a bare
`ZeroDivisionError` escapes from `main.py`'s unguarded formula chain at the two
temperatures that zero a denominator.  Binary floating-point artefacts
(rounding of individual operations, overflow of `math.exp`) are outside the
embedding; the two exact zero-denominator temperatures are kept because they
are exact in float arithmetic as well.
-/

/-- A Python float: either a finite value (a rational) or one of the
non-finite values rejected by `math.isfinite`. -/
inductive PyFloat where
  | finite (q : ℚ)
  | inf
  | neginf
  | nan
deriving DecidableEq

/-- The Python values relevant to the validators: numbers, and the
non-numeric values (text, null, collection) that `isinstance` rejects. -/
inductive PyVal where
  | vint (n : ℤ)
  | vfloat (f : PyFloat)
  | vstr (s : String)
  | vnone
  | vlist (l : List ℤ)
deriving DecidableEq

/-- The Python exceptions the engine can raise.  The source only ever raises
`ValueError` (with a message string) and lets `ZeroDivisionError` escape from
unguarded divisions; `singularityError` is the tagged error the spec's
taxonomy (§7) asks for and is present only so that statements about it can be
made — no function of the source constructs it. -/
inductive PyErr where
  | valueError (msg : String)
  | zeroDivisionError
  | singularityError
deriving DecidableEq

/-- The exception class of an error, forgetting the message payload: this is
what a Python caller can branch on without parsing strings. -/
inductive PyErrClass where
  | valueErrorClass
  | zeroDivisionErrorClass
  | singularityErrorClass
deriving DecidableEq

def pyErrClass : PyErr → PyErrClass
  | .valueError _ => .valueErrorClass
  | .zeroDivisionError => .zeroDivisionErrorClass
  | .singularityError => .singularityErrorClass

/-- `isinstance(value, (int, float))` of the validators. -/
def pyIsNumeric : PyVal → Bool
  | .vint _ => true
  | .vfloat _ => true
  | _ => false

/-- The finite numeric value of a Python value, when it has one: this is the
`float(value)` the validators return, and it is `none` exactly on non-numbers
and non-finite floats. -/
def pyFiniteVal : PyVal → Option ℚ
  | .vint n => some (n : ℚ)
  | .vfloat (.finite q) => some q
  | _ => none

/-- Python's `int(x)` on a float: truncation toward zero. -/
def pyIntTrunc (q : ℚ) : ℤ :=
  if 0 ≤ q then ⌊q⌋ else -⌊-q⌋

/-- `validate_temperature`, src/app/psychro_calculations.py lines 188-214:
type check, finiteness check, then the two range checks, in source order. -/
def validate_temperature : PyVal → Except PyErr ℚ
  | .vint n =>
      if (n : ℚ) < -273.15 then
        .error (PyErr.valueError ("Temperature cannot be below absolute zero (-273.15°C)"))
      else if (1000 : ℚ) < (n : ℚ) then
        .error (PyErr.valueError ("Temperature too high for accurate calculation"))
      else .ok (n : ℚ)
  | .vfloat (.finite q) =>
      if q < -273.15 then
        .error (PyErr.valueError ("Temperature cannot be below absolute zero (-273.15°C)"))
      else if (1000 : ℚ) < q then
        .error (PyErr.valueError ("Temperature too high for accurate calculation"))
      else .ok q
  | .vfloat _ =>
      .error (PyErr.valueError ("Temperature must be a finite number"))
  | _ => .error (PyErr.valueError ("Temperature must be a number"))

/-- `validate_humidity`, src/app/psychro_calculations.py lines 217-239:
type check, finiteness check, range check `0 <= h <= 100`, then `int(h)`. -/
def validate_humidity : PyVal → Except PyErr ℤ
  | .vint n =>
      if 0 ≤ (n : ℚ) ∧ (n : ℚ) ≤ 100 then .ok n
      else .error (PyErr.valueError ("Humidity must be between 0 and 100"))
  | .vfloat (.finite q) =>
      if 0 ≤ q ∧ q ≤ 100 then .ok (pyIntTrunc q)
      else .error (PyErr.valueError ("Humidity must be between 0 and 100"))
  | .vfloat _ =>
      .error (PyErr.valueError ("Humidity must be a finite number"))
  | _ => .error (PyErr.valueError ("Humidity must be a number"))

/-- `round(x, 2)` of the result formatter: scale by 100, round to an integer,
scale back.  (The spec's §4.4 leaves the tie policy open; ties go up here,
and no claim depends on a tie.) -/
noncomputable def roundTo2 (x : ℝ) : ℝ :=
  ((round (x * 100) : ℤ) : ℝ) / 100

/-- Saturation vapor pressure in hPa by the Magnus formula,
`6.112 * exp((17.67 * T) / (T + 243.5))`: main.py lines 30-32, spec §4.2. -/
noncomputable def magnus_svp (T : ℚ) : ℝ :=
  6.112 * Real.exp ((17.67 * (T : ℝ)) / ((T : ℝ) + 243.5))

/-- Actual vapor pressure in Pa: the relative-humidity fraction times the
saturation pressure, converted from hPa by `* 100`: main.py lines 25-46,
spec §4.3 steps 1-3. -/
noncomputable def vapor_pressure_pa (T : ℚ) (h : ℤ) : ℝ :=
  ((h : ℝ) / 100) * magnus_svp T * 100

namespace Main

/-- The unrounded absolute humidity of main.py lines 50-55:
`(e_pa * 18.016) / (8314.5 * T_kelvin) * 1000` in g/m³. -/
noncomputable def absolute_humidity_value (T : ℚ) (h : ℤ) : ℝ :=
  vapor_pressure_pa T h * 18.016 / (8314.5 * ((T : ℝ) + 273.15)) * 1000

/-- `calculate_absolute_humidity` of main.py lines 11-57.  The Python body has
no guards: at `T = -243.5` the Magnus denominator is exactly zero and at
`T = -273.15` the Kelvin denominator is exactly zero, so the division raises a
bare `ZeroDivisionError`; everywhere else the rounded formula value is
returned. -/
noncomputable def calculate_absolute_humidity (T : ℚ) (h : ℤ) : Except PyErr ℝ :=
  if T = -243.5 then .error PyErr.zeroDivisionError
  else if T = -273.15 then .error PyErr.zeroDivisionError
  else .ok (roundTo2 (absolute_humidity_value T h))

end Main

/-- The six-step composed formula chain exactly as the spec and claim C1 word
it: `((h/100) * 6.112 * exp((17.67*T)/(T+243.5)) * 100 * 18.016) /
(8314.5 * (T + 273.15)) * 1000`. -/
noncomputable def spec_formula_chain (T : ℚ) (h : ℤ) : ℝ :=
  ((h : ℝ) / 100 * 6.112 * Real.exp ((17.67 * (T : ℝ)) / ((T : ℝ) + 243.5)) * 100 * 18.016) /
    (8314.5 * ((T : ℝ) + 273.15)) * 1000

namespace Psychro

/-- Modelled from the spec: the PsychroLib humidity-ratio computation called at
src/app/psychro_calculations.py line 52 is external library code not under
src/; per spec §4.3 the humidity-ratio variant uses
`w = 0.622 * e / (P - e)` with `e` the actual vapor pressure (from the §4.2
Magnus saturation pressure) and `P = 101325` Pa. -/
noncomputable def humidity_w (T : ℚ) (h : ℤ) : ℝ :=
  0.622 * vapor_pressure_pa T h / (101325 - vapor_pressure_pa T h)

/-- Modelled from the spec: the molar mass of dry air implied by the spec's
constants, `18.016 / 0.622` g/mol (spec §4.3 fixes the water molar mass 18.016
and the factor 0.622 = Mw/Mda). -/
noncomputable def dry_air_molar_mass : ℝ :=
  18.016 / 0.622

/-- Modelled from the spec: the PsychroLib air-density computation called at
src/app/psychro_calculations.py line 60 is external library code not under
src/; the ideal-gas-law variant of spec §4.3 takes the density of the dry-air
component at its partial pressure `P - e`,
`rho = (P - e) * Mda / (8314.5 * T_kelvin)` in kg/m³. -/
noncomputable def air_density (T : ℚ) (h : ℤ) : ℝ :=
  (101325 - vapor_pressure_pa T h) * dry_air_molar_mass / (8314.5 * ((T : ℝ) + 273.15))

/-- The unrounded absolute humidity of the humidity-ratio/ideal-gas-law
variant: density times humidity ratio, converted to g/m³
(src/app/psychro_calculations.py lines 58-67, with the two library calls
modelled from the spec as above). -/
noncomputable def absolute_humidity_value (T : ℚ) (h : ℤ) : ℝ :=
  air_density T h * humidity_w T h * 1000

/-- `calculate_absolute_humidity` of src/app/psychro_calculations.py lines
18-74: validate both inputs, run the variant chain, round to 2 decimals.  The
chain divides by `T + 243.5` (inside the Magnus exponent) and by the Kelvin
temperature, so at exactly `-243.5` or `-273.15` a `ZeroDivisionError` escapes
(the docstring documents exactly that); the outer `except` re-raises
`ValueError` and `ZeroDivisionError` unchanged. -/
noncomputable def calculate_absolute_humidity (T : ℚ) (hq : ℚ) : Except PyErr ℝ :=
  match validate_temperature (PyVal.vfloat (PyFloat.finite T)) with
  | .error e => .error e
  | .ok t =>
    match validate_humidity (PyVal.vfloat (PyFloat.finite hq)) with
    | .error e => .error e
    | .ok hh =>
      if t = -243.5 ∨ t = -273.15 then .error PyErr.zeroDivisionError
      else .ok (roundTo2 (absolute_humidity_value t hh))

end Psychro

/-- The response model of src/app/models.py: the computed value, the two
echoed inputs, and the unit label. -/
structure HumidityCalculationResponse where
  absolute_humidity : ℝ
  temperature : ℚ
  humidity : ℤ
  unit : String

/-- `calculate_humidity` of src/app/routes/api.py lines 55-109: the two
hard-coded sentinel responses for exactly `1000.0` and `-273.15` (the inner
`if`/`elif` of lines 78-94), and the PsychroLib-based chain for every other
temperature.  `config.DEFAULT_UNIT` is the string "g/m³". -/
noncomputable def calculate_humidity (temperature : ℚ) (humidity : ℤ) :
    Except PyErr HumidityCalculationResponse :=
  if temperature = 1000 ∨ temperature = -273.15 then
    if temperature = -273.15 then
      .ok ⟨0.0001, temperature, humidity, "g/m³"⟩
    else
      .ok ⟨9999.99, temperature, humidity, "g/m³"⟩
  else
    match Psychro.calculate_absolute_humidity temperature (humidity : ℚ) with
    | .ok ah => .ok ⟨ah, temperature, humidity, "g/m³"⟩
    | .error e => .error e

/- ------------------------------------------------------------------ -/
/- Helper lemmas -/
/- ------------------------------------------------------------------ -/

theorem roundTo2_zero : roundTo2 0 = 0 := by
  simp [roundTo2]

theorem roundTo2_mono {x y : ℝ} (h : x ≤ y) : roundTo2 x ≤ roundTo2 y := by
  unfold roundTo2
  have hr : round (x * 100) ≤ round (y * 100) := by
    rw [round_eq, round_eq]
    exact Int.floor_mono (by linarith)
  have hc : ((round (x * 100) : ℤ) : ℝ) ≤ ((round (y * 100) : ℤ) : ℝ) :=
    Int.cast_le.2 hr
  linarith

theorem abs_roundTo2_sub (x : ℝ) : |roundTo2 x - x| ≤ 1 / 200 := by
  have h := abs_sub_round (x * 100)
  have hrw : roundTo2 x - x = -((x * 100 - ((round (x * 100) : ℤ) : ℝ)) / 100) := by
    unfold roundTo2; ring
  rw [hrw, abs_neg, abs_div, abs_of_pos (show (0 : ℝ) < 100 by norm_num)]
  linarith

theorem magnus_svp_pos (T : ℚ) : 0 < magnus_svp T := by
  unfold magnus_svp
  positivity

/-- With zero relative humidity the whole chain collapses to zero, whatever
the temperature. -/
theorem main_value_at_zero (T : ℚ) : Main.absolute_humidity_value T 0 = 0 := by
  simp [Main.absolute_humidity_value, vapor_pressure_pa]

theorem main_calc_at_zero (T : ℚ) (h1 : T ≠ -243.5) (h2 : T ≠ -273.15) :
    Main.calculate_absolute_humidity T 0 = .ok 0 := by
  unfold Main.calculate_absolute_humidity
  rw [if_neg h1, if_neg h2, main_value_at_zero, roundTo2_zero]

/- ------------------------------------------------------------------ -/
/- Claim C1 -/
/- ------------------------------------------------------------------ -/

/-- Claim C1, counterexample: the claim quantifies over all of
`[-273.15, 1000]` excluding only `-243.5`, but at `T = -273.15` the Kelvin
denominator of main.py is exactly zero and the function raises
`ZeroDivisionError` instead of returning the rounded formula value. -/
theorem main_spec_formula_fails_at_abs_zero :
    Main.calculate_absolute_humidity (-273.15) 50
      ≠ .ok (roundTo2 (spec_formula_chain (-273.15) 50)) := by
  unfold Main.calculate_absolute_humidity
  rw [if_neg (by norm_num), if_pos rfl]
  simp

/-- Claim C1 (amended to the open left endpoint): for every temperature in
`(-273.15, 1000]` other than `-243.5` and every humidity in `[0, 100]`,
main.py's `calculate_absolute_humidity` returns the round-to-2-decimals of the
spec's six-step composed formula chain. -/
theorem main_matches_spec_formula (T : ℚ) (h : ℤ)
    (hlo : -273.15 < T) (hhi : T ≤ 1000) (hs : T ≠ -243.5)
    (hh0 : 0 ≤ h) (hh1 : h ≤ 100) :
    Main.calculate_absolute_humidity T h = .ok (roundTo2 (spec_formula_chain T h)) := by
  unfold Main.calculate_absolute_humidity
  rw [if_neg hs, if_neg (ne_of_gt hlo)]
  have hv : Main.absolute_humidity_value T h = spec_formula_chain T h := by
    unfold Main.absolute_humidity_value spec_formula_chain vapor_pressure_pa magnus_svp
    ring
  rw [hv]

theorem main_matches_spec_formula_witness :
    Main.calculate_absolute_humidity 20 50 = .ok (roundTo2 (spec_formula_chain 20 50)) :=
  main_matches_spec_formula 20 50 (by norm_num) (by norm_num) (by norm_num)
    (by norm_num) (by norm_num)

/- ------------------------------------------------------------------ -/
/- Claim C3 -/
/- ------------------------------------------------------------------ -/

/-- Claim C3, counterexample: at `(-243.5, 50)` main.py's chain yields the
generic division fault `ZeroDivisionError`, which is not the tagged
`SingularityError` the claim asserts. -/
theorem singularity_not_tagged :
    Main.calculate_absolute_humidity (-243.5) 50 = .error PyErr.zeroDivisionError ∧
    (Except.error PyErr.zeroDivisionError : Except PyErr ℝ)
      ≠ .error PyErr.singularityError := by
  constructor
  · unfold Main.calculate_absolute_humidity
    rw [if_pos rfl]
  · simp

/-- Claim C3 (amended): at temperature exactly `-243.5` with valid humidity,
both variants of the computation raise the generic `ZeroDivisionError` arising
from the zero Magnus-formula denominator; no `SingularityError` is detected or
raised anywhere in the code. -/
theorem singularity_raises_zero_division :
    Main.calculate_absolute_humidity (-243.5) 50 = .error PyErr.zeroDivisionError ∧
    Psychro.calculate_absolute_humidity (-243.5) 50 = .error PyErr.zeroDivisionError := by
  constructor
  · unfold Main.calculate_absolute_humidity
    rw [if_pos rfl]
  · unfold Psychro.calculate_absolute_humidity
    norm_num [validate_temperature, validate_humidity, pyIntTrunc]

/- ------------------------------------------------------------------ -/
/- Claim C4 -/
/- ------------------------------------------------------------------ -/

/-- Claim C4, counterexample: `-243.5` lies in the accepted domain, yet at
`(-243.5, 0)` main.py raises `ZeroDivisionError` rather than returning 0.0. -/
theorem zero_humidity_fails_at_singularity :
    Main.calculate_absolute_humidity (-243.5) 0 = .error PyErr.zeroDivisionError ∧
    Main.calculate_absolute_humidity (-243.5) 0 ≠ .ok 0 := by
  constructor
  · unfold Main.calculate_absolute_humidity
    rw [if_pos rfl]
  · unfold Main.calculate_absolute_humidity
    rw [if_pos rfl]
    simp

/-- Claim C4 (amended): for every temperature in the accepted domain other
than the two zero-denominator points `-243.5` and `-273.15`,
`calculate_absolute_humidity(T, 0)` returns exactly 0.0. -/
theorem zero_humidity_gives_zero (T : ℚ)
    (hlo : -273.15 ≤ T) (hhi : T ≤ 1000) (hs : T ≠ -243.5) (hz : T ≠ -273.15) :
    Main.calculate_absolute_humidity T 0 = .ok 0 :=
  main_calc_at_zero T hs hz

theorem zero_humidity_gives_zero_witness :
    Main.calculate_absolute_humidity 25 0 = .ok 0 :=
  zero_humidity_gives_zero 25 (by norm_num) (by norm_num) (by norm_num) (by norm_num)

/- ------------------------------------------------------------------ -/
/- Claim C5 -/
/- ------------------------------------------------------------------ -/

/-- Claim C5: whenever main.py's `calculate_absolute_humidity` returns values
at two humidities `h1 ≤ h2` in `[0, 100]` at the same valid temperature, the
returned values are non-decreasing. -/
theorem monotone_in_humidity (T : ℚ) (h1 h2 : ℤ)
    (hT0 : -273.15 ≤ T) (hT1 : T ≤ 1000)
    (hh0 : 0 ≤ h1) (h12 : h1 ≤ h2) (hh2 : h2 ≤ 100)
    (y1 y2 : ℝ)
    (e1 : Main.calculate_absolute_humidity T h1 = .ok y1)
    (e2 : Main.calculate_absolute_humidity T h2 = .ok y2) : y1 ≤ y2 := by
  unfold Main.calculate_absolute_humidity at e1 e2
  by_cases hs : T = -243.5
  · rw [if_pos hs] at e1
    exact absurd e1 (by simp)
  rw [if_neg hs] at e1 e2
  by_cases hz : T = -273.15
  · rw [if_pos hz] at e1
    exact absurd e1 (by simp)
  rw [if_neg hz] at e1 e2
  injection e1 with e1
  injection e2 with e2
  subst e1
  subst e2
  have hQ : (-273.15 : ℚ) < T := lt_of_le_of_ne hT0 (Ne.symm hz)
  have hR : ((-273.15 : ℚ) : ℝ) < (T : ℝ) := by exact_mod_cast hQ
  have hR0 : ((-273.15 : ℚ) : ℝ) = -273.15 := by norm_num
  have hTpos : (0 : ℝ) < (T : ℝ) + 273.15 := by rw [hR0] at hR; linarith
  apply roundTo2_mono
  have hrew : ∀ h : ℤ, Main.absolute_humidity_value T h =
      (h : ℝ) * (magnus_svp T * 18.016 / (8314.5 * ((T : ℝ) + 273.15)) * 1000) := by
    intro h
    unfold Main.absolute_humidity_value vapor_pressure_pa
    ring
  rw [hrew h1, hrew h2]
  apply mul_le_mul_of_nonneg_right (by exact_mod_cast h12)
  have hnum : (0 : ℝ) ≤ magnus_svp T * 18.016 :=
    mul_nonneg (magnus_svp_pos T).le (by norm_num)
  have hden : (0 : ℝ) < 8314.5 * ((T : ℝ) + 273.15) :=
    mul_pos (by norm_num) hTpos
  exact mul_nonneg (div_nonneg hnum hden.le) (by norm_num)

theorem monotone_in_humidity_witness :
    (0 : ℝ) ≤ roundTo2 (Main.absolute_humidity_value 20 100) := by
  have e1 : Main.calculate_absolute_humidity 20 0 = .ok 0 :=
    main_calc_at_zero 20 (by norm_num) (by norm_num)
  have e2 : Main.calculate_absolute_humidity 20 100
      = .ok (roundTo2 (Main.absolute_humidity_value 20 100)) := by
    unfold Main.calculate_absolute_humidity
    rw [if_neg (by norm_num), if_neg (by norm_num)]
  exact monotone_in_humidity 20 0 100 (by norm_num) (by norm_num) (by norm_num)
    (by norm_num) (by norm_num) 0 _ e1 e2

/- ------------------------------------------------------------------ -/
/- Claim C6 -/
/- ------------------------------------------------------------------ -/

/-- Claim C6: for every finite float in `[0, 100]`, `validate_humidity`
returns `int(v)`, the truncation toward zero, which on this non-negative range
is the floor (so 99.9 validates to 99, not 100). -/
theorem humidity_truncation (q : ℚ) (h0 : 0 ≤ q) (h1 : q ≤ 100) :
    validate_humidity (PyVal.vfloat (PyFloat.finite q)) = .ok (pyIntTrunc q) ∧
    pyIntTrunc q = ⌊q⌋ := by
  constructor
  · simp only [validate_humidity]
    rw [if_pos ⟨h0, h1⟩]
  · unfold pyIntTrunc
    rw [if_pos h0]

theorem humidity_truncation_witness :
    validate_humidity (PyVal.vfloat (PyFloat.finite 99.9)) = .ok 99 := by
  have h := humidity_truncation 99.9 (by norm_num) (by norm_num)
  rw [h.1, h.2]
  have hf : (⌊(99.9 : ℚ)⌋ : ℤ) = 99 := by
    rw [Int.floor_eq_iff]
    norm_num
  rw [hf]

/- ------------------------------------------------------------------ -/
/- Claim C7 -/
/- ------------------------------------------------------------------ -/

/-- Claim C7: on valid inputs the direct vapor-pressure chain of main.py and
the humidity-ratio/ideal-gas-law variant produce the same rounded result (the
partial-pressure hypothesis `P - e ≠ 0` is the variant's non-degeneracy
condition; the two unrounded values are exactly equal, so they agree within
any rounding tolerance). -/
theorem variants_agree (T : ℚ) (h : ℤ)
    (hT0 : -273.15 ≤ T) (hT1 : T ≤ 1000) (hh0 : 0 ≤ h) (hh1 : h ≤ 100)
    (hp : (101325 : ℝ) - vapor_pressure_pa T h ≠ 0) :
    roundTo2 (Psychro.absolute_humidity_value T h)
      = roundTo2 (Main.absolute_humidity_value T h) := by
  have hv : Psychro.absolute_humidity_value T h = Main.absolute_humidity_value T h := by
    unfold Psychro.absolute_humidity_value Psychro.air_density Psychro.humidity_w
      Psychro.dry_air_molar_mass Main.absolute_humidity_value
    rcases eq_or_ne (8314.5 * ((T : ℝ) + 273.15)) 0 with hD | hD
    · rw [hD]
      simp
    · field_simp
      ring
  rw [hv]

theorem variants_agree_witness :
    roundTo2 (Psychro.absolute_humidity_value 20 0)
      = roundTo2 (Main.absolute_humidity_value 20 0) :=
  variants_agree 20 0 (by norm_num) (by norm_num) (by norm_num) (by norm_num)
    (by rw [show vapor_pressure_pa 20 0 = 0 from by simp [vapor_pressure_pa]]; norm_num)

/- ------------------------------------------------------------------ -/
/- Claim C8 -/
/- ------------------------------------------------------------------ -/

/-- Claim C8, counterexample: the InvalidType-kind failure and the
NonFinite-kind failure of `validate_temperature` are distinct failures (their
messages differ) yet carry the same exception class `ValueError`, so a caller
cannot branch on the error kind without parsing the message strings. -/
theorem error_kinds_share_type :
    validate_temperature (PyVal.vstr ("abc"))
      = .error (PyErr.valueError ("Temperature must be a number")) ∧
    validate_temperature (PyVal.vfloat PyFloat.nan)
      = .error (PyErr.valueError ("Temperature must be a finite number")) ∧
    pyErrClass (PyErr.valueError ("Temperature must be a number"))
      = pyErrClass (PyErr.valueError ("Temperature must be a finite number")) ∧
    PyErr.valueError ("Temperature must be a number")
      ≠ PyErr.valueError ("Temperature must be a finite number") :=
  ⟨rfl, rfl, rfl, by decide⟩

/-- Claim C8 (amended): every failure raised by the validators is a plain
`ValueError` whose only payload is a message string; the failure kinds of the
spec's taxonomy are therefore distinguishable only by message text, never by
a distinct type tag. -/
theorem validation_errors_all_valueError (v : PyVal) (e : PyErr)
    (h : validate_temperature v = .error e ∨ validate_humidity v = .error e) :
    pyErrClass e = PyErrClass.valueErrorClass := by
  obtain ⟨msg, rfl⟩ : ∃ msg, e = PyErr.valueError msg := by
    rcases h with h | h <;>
      rcases v with n | f | s | _ | l <;>
      try rcases f with q | _ | _ | _
    all_goals simp only [validate_temperature, validate_humidity] at h
    all_goals try split_ifs at h
    all_goals
      first
        | exact ⟨_, h.symm⟩
        | exact ⟨_, (Except.error.inj h).symm⟩
  rfl

theorem validation_errors_all_valueError_witness :
    pyErrClass (PyErr.valueError ("Temperature must be a number"))
      = PyErrClass.valueErrorClass :=
  validation_errors_all_valueError (PyVal.vstr ("abc")) _ (Or.inl rfl)

/- ------------------------------------------------------------------ -/
/- Claim C10 -/
/- ------------------------------------------------------------------ -/

/-- Claim C10: the API route returns the hard-coded sentinel 0.0001 at
exactly -273.15 and 9999.99 at exactly 1000.0 for every humidity in
`[0, 100]`, bypassing the calculation chain, and delegates every other
temperature to `calculate_absolute_humidity`. -/
theorem api_sentinel_values (h : ℤ) (T : ℚ) (h0 : 0 ≤ h) (h1 : h ≤ 100) :
    calculate_humidity (-273.15) h = .ok ⟨0.0001, -273.15, h, "g/m³"⟩ ∧
    calculate_humidity 1000 h = .ok ⟨9999.99, 1000, h, "g/m³"⟩ ∧
    (T ≠ 1000 → T ≠ -273.15 →
      calculate_humidity T h =
        (Psychro.calculate_absolute_humidity T (h : ℚ)).map
          (fun ah => ⟨ah, T, h, "g/m³"⟩)) := by
  refine ⟨?_, ?_, ?_⟩
  · unfold calculate_humidity
    rw [if_pos (Or.inr rfl), if_pos rfl]
  · unfold calculate_humidity
    rw [if_pos (Or.inl rfl), if_neg (by norm_num)]
  · intro hT1 hT2
    unfold calculate_humidity
    rw [if_neg (by tauto)]
    cases hpc : Psychro.calculate_absolute_humidity T (h : ℚ) with
      | error e => simp [Except.map]
      | ok ah => simp [Except.map]

theorem api_sentinel_values_witness :
    calculate_humidity (-273.15) 50 = .ok ⟨0.0001, -273.15, 50, "g/m³"⟩ ∧
    calculate_humidity 1000 50 = .ok ⟨9999.99, 1000, 50, "g/m³"⟩ ∧
    calculate_humidity 20 50 =
      (Psychro.calculate_absolute_humidity 20 ((50 : ℤ) : ℚ)).map
        (fun ah => ⟨ah, 20, 50, "g/m³"⟩) := by
  have h := api_sentinel_values 50 20 (by norm_num) (by norm_num)
  exact ⟨h.1, h.2.1, h.2.2 (by norm_num) (by norm_num)⟩

/- ------------------------------------------------------------------ -/
/- Claim C2 -/
/- ------------------------------------------------------------------ -/

/-- Claim C2: `validate_temperature` fails with the InvalidType failure
("Temperature must be a number") exactly on non-numeric inputs, with the
NonFinite failure ("Temperature must be a finite number") exactly on infinite
or NaN numeric inputs, with an OutOfRange failure exactly on finite numeric
inputs below -273.15 (message "Temperature cannot be below absolute zero
(-273.15°C)") or above 1000.0 (message "Temperature too high for accurate
calculation"), and otherwise returns the value converted to float; it is a
pure function of its argument, so it has no side effects. -/
theorem validate_temperature_cases (v : PyVal) :
    (validate_temperature v = .error (PyErr.valueError ("Temperature must be a number"))
        ↔ pyIsNumeric v = false)
  ∧ (validate_temperature v = .error (PyErr.valueError ("Temperature must be a finite number"))
        ↔ (pyIsNumeric v = true ∧ pyFiniteVal v = none))
  ∧ (∀ q : ℚ, pyFiniteVal v = some q →
      ((validate_temperature v
          = .error (PyErr.valueError ("Temperature cannot be below absolute zero (-273.15°C)"))
          ↔ q < -273.15)
      ∧ (validate_temperature v
          = .error (PyErr.valueError ("Temperature too high for accurate calculation"))
          ↔ (-273.15 ≤ q ∧ 1000 < q))
      ∧ (-273.15 ≤ q → q ≤ 1000 → validate_temperature v = .ok q))) := by
  rcases v with n | f | s | _ | l
  case vint =>
    refine ⟨?_, ?_, ?_⟩
    · simp only [validate_temperature, pyIsNumeric]
      split_ifs <;> simp
    · simp only [validate_temperature, pyIsNumeric, pyFiniteVal]
      split_ifs <;> simp
    · intro q hq
      simp only [pyFiniteVal, Option.some.injEq] at hq
      subst hq
      refine ⟨?_, ?_, ?_⟩
      · simp only [validate_temperature]
        split_ifs with h1 h2 <;> simp <;> first | exact h1 | exact not_lt.1 h1
      · simp only [validate_temperature]
        split_ifs with h1 h2 <;> simp
        · intro hc
          linarith
        · exact ⟨not_lt.1 h1, h2⟩
        · exact fun _ => not_lt.1 h2
      · intro hlo hhi
        simp only [validate_temperature]
        rw [if_neg (not_lt.2 hlo), if_neg (not_lt.2 hhi)]
  case vfloat =>
    rcases f with q | _ | _ | _
    case finite =>
      refine ⟨?_, ?_, ?_⟩
      · simp only [validate_temperature, pyIsNumeric]
        split_ifs <;> simp
      · simp only [validate_temperature, pyIsNumeric, pyFiniteVal]
        split_ifs <;> simp
      · intro q2 hq
        simp only [pyFiniteVal, Option.some.injEq] at hq
        subst hq
        refine ⟨?_, ?_, ?_⟩
        · simp only [validate_temperature]
          split_ifs with h1 h2 <;> simp <;> first | exact h1 | exact not_lt.1 h1
        · simp only [validate_temperature]
          split_ifs with h1 h2 <;> simp
          · intro hc
            linarith
          · exact ⟨not_lt.1 h1, h2⟩
          · exact fun _ => not_lt.1 h2
        · intro hlo hhi
          simp only [validate_temperature]
          rw [if_neg (not_lt.2 hlo), if_neg (not_lt.2 hhi)]
    all_goals
      refine ⟨?_, ?_, ?_⟩ <;>
        simp [validate_temperature, pyIsNumeric, pyFiniteVal]
  all_goals
    refine ⟨?_, ?_, ?_⟩ <;>
      simp [validate_temperature, pyIsNumeric, pyFiniteVal]

theorem validate_temperature_cases_witness :
    validate_temperature (PyVal.vfloat (PyFloat.finite 25)) = .ok 25 :=
  ((validate_temperature_cases (PyVal.vfloat (PyFloat.finite 25))).2.2 25 rfl).2.2
    (by norm_num) (by norm_num)

/- ------------------------------------------------------------------ -/
/- Claim C9 -/
/- ------------------------------------------------------------------ -/

/-- Taylor bound for the exponential at 29/85, the fractional part of the
Magnus exponent at 20 °C (the exponent is 17.67*20/263.5 = 114/85). -/
theorem exp_taylor_q : |Real.exp (29/85) - (1 + 29/85 + (29/85)^2/2 + (29/85)^3/6)|
    ≤ (29/85 : ℝ)^4 * (5/96) := by
  have hx : |(29/85 : ℝ)| ≤ 1 := by
    rw [abs_of_nonneg (by norm_num : (0:ℝ) ≤ 29/85)]
    norm_num
  have h := Real.exp_bound hx (by norm_num : 0 < 4)
  have hsum : ∑ m ∈ Finset.range 4, ((29/85 : ℝ)) ^ m / m.factorial
      = 1 + 29/85 + (29/85)^2/2 + (29/85)^3/6 := by
    norm_num [Finset.sum_range_succ, Nat.factorial]
  rw [hsum, abs_of_nonneg (by norm_num : (0:ℝ) ≤ 29/85)] at h
  refine le_trans h (le_of_eq ?_)
  norm_num [Nat.factorial]

theorem exp_2985_bounds : (1.4052 : ℝ) ≤ Real.exp (29/85) ∧ Real.exp (29/85) ≤ 1.4068 := by
  have h := exp_taylor_q
  rw [abs_le] at h
  constructor <;> nlinarith [h.1, h.2]

theorem exp_E_bounds : (3.80 : ℝ) ≤ Real.exp (1 + 29/85) ∧ Real.exp (1 + 29/85) ≤ 3.85 := by
  rw [Real.exp_add]
  have h1l := Real.exp_one_gt_d9
  have h1u := Real.exp_one_lt_d9
  have h2 := exp_2985_bounds
  have e2pos : (0:ℝ) < Real.exp (29/85) := Real.exp_pos _
  constructor
  · calc (3.80 : ℝ) ≤ 2.7182818283 * 1.4052 := by norm_num
      _ ≤ Real.exp 1 * Real.exp (29/85) :=
        mul_le_mul h1l.le h2.1 (by norm_num) (by positivity)
  · calc Real.exp 1 * Real.exp (29/85) ≤ 2.7182818286 * 1.4068 :=
        mul_le_mul h1u.le h2.2 e2pos.le (by norm_num)
      _ ≤ 3.85 := by norm_num

/-- Claim C9: `compute(20.0, 50)` succeeds and the returned absolute humidity
is within 0.1 g/m³ of 8.65 (the true value is about 8.64). -/
theorem compute_20_50_approx :
    ∃ y, Main.calculate_absolute_humidity 20 50 = .ok y ∧ |y - 8.65| ≤ 0.1 := by
  refine ⟨roundTo2 (Main.absolute_humidity_value 20 50), ?_, ?_⟩
  · unfold Main.calculate_absolute_humidity
    rw [if_neg (by norm_num), if_neg (by norm_num)]
  · have hval : Main.absolute_humidity_value 20 50
        = 5505689.6 / 2437395.675 * Real.exp (1 + 29 / 85) := by
      unfold Main.absolute_humidity_value vapor_pressure_pa magnus_svp
      norm_num
      ring
    have hE := exp_E_bounds
    have hlo : (8.58 : ℝ) ≤ Main.absolute_humidity_value 20 50 := by
      rw [hval]
      nlinarith [hE.1, hE.2]
    have hhi : Main.absolute_humidity_value 20 50 ≤ 8.70 := by
      rw [hval]
      nlinarith [hE.1, hE.2]
    have hr := abs_roundTo2_sub (Main.absolute_humidity_value 20 50)
    rw [abs_le] at hr ⊢
    constructor <;> linarith [hr.1, hr.2]
